import Mathlib

/-!
Verification of the cart-fetching hook of `type-safe-graphql-mocks-msw`.

The repository's functional surface is the React hook `useCart` (src/useCart.ts),
the static GraphQL operation text `getCartById` (src/GetCartById.ts) and the
`Home` page component (pages/index.tsx) that renders the fetched cart's total
item count.  This file gives a shallow embedding of that code:

* JSON values are modelled by the inductive type `Json`; the JS value
  `undefined` is modelled by `none` at type `Option Json`.
* `JSON.stringify` is modelled by `jsonStringify`, including the string-escaping
  rules of JavaScript's serializer (`escChar`).
* The hook instance is a state machine: `HookState` holds the `useState` cell,
  the dependency array of the last committed render and the log of issued
  requests; `step` interprets the three kinds of events a hook instance
  observes (a render with some identifier, the settlement of an outstanding
  fetch with a response, a network failure that rejects the fetch).
-/

/-- JSON values as delivered by `res.json()` and consumed by the hook.
Numbers are modelled as integers (every number appearing in the data model —
`totalItems`, `quantity`, `amount` — is an integer). -/
inductive Json where
  | null : Json
  | bool : Bool → Json
  | num : Int → Json
  | str : String → Json
  | arr : List Json → Json
  | obj : List (String × Json) → Json

/-- Property lookup on a JS object: the value stored under `key`, or `none`
when the object has no such property (JS `undefined`). -/
def jsLookup : List (String × Json) → String → Option Json
  | [], _ => none
  | (k, v) :: rest, key => if k = key then some v else jsLookup rest key

/-- One hexadecimal digit as produced by JavaScript (lowercase letters). -/
def hexDig (n : Nat) : Char :=
  if n < 10 then Char.ofNat (48 + n) else Char.ofNat (87 + n)

/-- The escape sequence `JSON.stringify` emits for one character of a string:
quote and backslash are backslash-escaped, the five named control characters
use their short escapes, the remaining control characters use `\u00XX`
(lowercase hex), and every other character is emitted verbatim. -/
def escChar (c : Char) : List Char :=
  if c = '"' then ['\\', '"']
  else if c = '\\' then ['\\', '\\']
  else if c = '\x08' then ['\\', 'b']
  else if c = '\x0c' then ['\\', 'f']
  else if c = '\n' then ['\\', 'n']
  else if c = '\r' then ['\\', 'r']
  else if c = '\t' then ['\\', 't']
  else if c.toNat < 32 then
    ['\\', 'u', '0', '0', hexDig (c.toNat / 16), hexDig (c.toNat % 16)]
  else [c]

/-- `JSON.stringify` escaping of a whole character list. -/
def escList : List Char → List Char
  | [] => []
  | c :: cs => escChar c ++ escList cs

/-- `JSON.stringify` escaping of a string. -/
def escapeS (s : String) : String := String.mk (escList s.data)

/-- Value of a hexadecimal digit character (digits and lowercase letters). -/
def unhex (c : Char) : Option Nat :=
  if 48 ≤ c.toNat ∧ c.toNat ≤ 57 then some (c.toNat - 48)
  else if 97 ≤ c.toNat ∧ c.toNat ≤ 102 then some (c.toNat - 87)
  else none

mutual
/-- Decoder for the escaping produced by `escList`; a proof device used to show
that `escList` (and with it the serialized request body) is injective. -/
def descList : List Char → Option (List Char)
  | [] => some []
  | c :: t =>
    if c = '\\' then descEscape t
    else (descList t).map (fun l => c :: l)

/-- Decodes the remainder of an escape sequence, after its backslash. -/
def descEscape : List Char → Option (List Char)
  | [] => none
  | e :: t =>
    if e = '"' then (descList t).map (fun l => '"' :: l)
    else if e = '\\' then (descList t).map (fun l => '\\' :: l)
    else if e = 'b' then (descList t).map (fun l => '\x08' :: l)
    else if e = 'f' then (descList t).map (fun l => '\x0c' :: l)
    else if e = 'n' then (descList t).map (fun l => '\n' :: l)
    else if e = 'r' then (descList t).map (fun l => '\r' :: l)
    else if e = 't' then (descList t).map (fun l => '\t' :: l)
    else if e = 'u' then
      match t with
      | a :: b :: c2 :: d :: t2 =>
        match unhex a, unhex b, unhex c2, unhex d with
        | some x, some y, some z, some w =>
          (descList t2).map (fun l => Char.ofNat (4096 * x + 256 * y + 16 * z + w) :: l)
        | _, _, _, _ => none
      | _ => none
    else none
end

mutual
/-- Embedding of `JSON.stringify` on `Json` values: object fields are emitted
in insertion order, strings are quoted and escaped with `escChar`. -/
def jsonStringify : Json → String
  | Json.null => "null"
  | Json.bool true => "true"
  | Json.bool false => "false"
  | Json.num n => toString n
  | Json.str s => "\"" ++ escapeS s ++ "\""
  | Json.arr xs => "[" ++ stringifyItems xs ++ "]"
  | Json.obj fs => "\x7b" ++ stringifyFields fs ++ "\x7d"

/-- Comma-separated serialization of the elements of a JSON array. -/
def stringifyItems : List Json → String
  | [] => ""
  | [x] => jsonStringify x
  | x :: y :: rest => jsonStringify x ++ "," ++ stringifyItems (y :: rest)

/-- Comma-separated serialization of the fields of a JSON object. -/
def stringifyFields : List (String × Json) → String
  | [] => ""
  | [(k, v)] => "\"" ++ escapeS k ++ "\":" ++ jsonStringify v
  | (k, v) :: f :: rest =>
    "\"" ++ escapeS k ++ "\":" ++ jsonStringify v ++ "," ++ stringifyFields (f :: rest)
end

/-- Embedding of `src/GetCartById.ts`: the exact text of the `GetCartById`
GraphQL operation (the tagged template `gql = String` applied to a template
with no substitutions yields the raw template text). -/
def getCartById : String :=
  "\n  query GetCartById($id: ID!) \x7b\n    cart(id: $id) \x7b\n      totalItems\n      subTotal \x7b\n        amount\n        formatted\n      \x7d\n      items \x7b\n        id\n        name\n        quantity\n        unitTotal \x7b\n          formatted\n        \x7d\n      \x7d\n    \x7d\n  \x7d\n"

/-- An outbound HTTP request as issued by the hook's effect. -/
structure Request where
  url : String
  method : String
  contentType : String
  body : String
deriving DecidableEq

/-- The request body built by `useCart` (src/useCart.ts lines 7-13):
`JSON.stringify({ query, variables })` with `query = getCartById` and
`variables = { id }`. -/
def mkBody (id : String) : String :=
  jsonStringify (Json.obj
    [("query", Json.str getCartById),
     ("variables", Json.obj [("id", Json.str id)])])

/-- The fetch issued by `useCart`'s effect (src/useCart.ts lines 15-21):
`fetch("https://api.cartql.com", { method: "POST",
headers: { "Content-Type": "application/json" }, body })`. -/
def useCartRequest (id : String) : Request :=
  { url := "https://api.cartql.com"
    method := "POST"
    contentType := "application/json"
    body := mkBody id }

/-- Embedding of the response continuation (src/useCart.ts lines 22-26):
`.then((res) => res.json()).then(({ data }) => { setCart(data.cart); })`.
The argument is the value `res.json()` resolved to.  `Except.error ()` models
the continuation throwing (destructuring `null`, or reading `.cart` off
`undefined`/`null`), which rejects the promise chain unhandled, so `setCart`
is never called; `Except.ok v` models `setCart` being called with `v`
(`none` = JS `undefined`, when `data` has no `cart` property or is a
primitive). -/
def responseHandler : Json → Except Unit (Option Json)
  | Json.obj fields =>
    match jsLookup fields "data" with
    | none => Except.error ()
    | some Json.null => Except.error ()
    | some (Json.obj dfields) => Except.ok (jsLookup dfields "cart")
    | some _ => Except.ok none
  | _ => Except.error ()

/-- The per-instance state of one `useCart` hook:
`cart` is the `useState` cell (`none` = its initial `undefined`),
`lastDeps` is the `body` entry of the dependency array `[body, setCart]` as of
the last committed render (`setCart` is referentially stable, so only `body`
decides whether the effect re-runs), and `requests` is the log of requests the
effect has issued, in order. -/
structure HookState where
  cart : Option Json
  lastDeps : Option String
  requests : List Request

/-- The state of a freshly mounted hook instance: `useState()` starts the cell
at `undefined`, no render has committed, nothing has been fetched. -/
def initState : HookState := { cart := none, lastDeps := none, requests := [] }

/-- The events a `useCart` instance observes:
`render id` — the component renders with identifier `id` (the effect re-runs
exactly when the dependency `body` changed);
`respond status body` — an outstanding fetch resolves with HTTP status
`status` and a body whose `res.json()` result is `body` (`none` when the body
is not valid JSON and `res.json()` rejects);
`netfail` — an outstanding fetch rejects with a connection error. -/
inductive HookEvent where
  | render : String → HookEvent
  | respond : Nat → Option Json → HookEvent
  | netfail : HookEvent

/-- Is the event the settlement of a fetch with a response? -/
def HookEvent.isRespond : HookEvent → Bool
  | HookEvent.respond _ _ => true
  | _ => false

/-- One step of the hook instance.  A render re-runs the effect (issuing one
fetch) exactly when the serialized body differs from the previous render's
dependency entry.  A resolved fetch runs `responseHandler` on the parsed body
— the HTTP status is never inspected, matching the source, which never reads
`res.status` or `res.ok`; if the handler throws, or the body fails to parse,
or the fetch rejects, the rejection is unhandled and the state is unchanged. -/
def step (s : HookState) : HookEvent → HookState
  | HookEvent.render id =>
    if s.lastDeps = some (mkBody id) then s
    else { s with lastDeps := some (mkBody id)
                  requests := s.requests ++ [useCartRequest id] }
  | HookEvent.respond _ none => s
  | HookEvent.respond _ (some j) =>
    match responseHandler j with
    | Except.ok v => { s with cart := v }
    | Except.error _ => s
  | HookEvent.netfail => s

/-- Runs a hook instance from state `s` through a list of events. -/
def runFrom (s : HookState) : List HookEvent → HookState
  | [] => s
  | e :: t => runFrom (step s e) t

/-- Runs a freshly mounted hook instance through a list of events. -/
def runHook (t : List HookEvent) : HookState := runFrom initState t

/-- The identifiers rendered during a trace, in order. -/
def observedIds : List HookEvent → List String
  | [] => []
  | HookEvent.render id :: rest => id :: observedIds rest
  | _ :: rest => observedIds rest

/-- Modelled from the spec: the identifiers for which the spec predicts an
outbound request — the first identifier rendered, and every identifier that
differs from the previously rendered one ("each change of identifier issues
exactly one new request"). -/
def dedupChanges : List String → List String
  | [] => []
  | id :: rest => id :: dedupAfter id rest
where
  dedupAfter : String → List String → List String
  | _, [] => []
  | prev, id :: rest => if id = prev then dedupAfter prev rest else id :: dedupAfter id rest

/-- Shape check for one fully-formed line item, following the selection set of
`getCartById` and the data model: `id` and `name` are strings, `quantity` is an
integer, `unitTotal` carries a formatted display string. -/
def isFullLineItem : Json → Bool
  | Json.obj f =>
    (match jsLookup f "id" with | some (Json.str _) => true | _ => false) &&
    (match jsLookup f "name" with | some (Json.str _) => true | _ => false) &&
    (match jsLookup f "quantity" with | some (Json.num _) => true | _ => false) &&
    (match jsLookup f "unitTotal" with
     | some (Json.obj u) =>
       (match jsLookup u "formatted" with | some (Json.str _) => true | _ => false)
     | _ => false)
  | _ => false

/-- Shape check for a fully-formed cart, following the selection set of
`getCartById` and the data model: an integer `totalItems`, a `subTotal` with an
integer `amount` and a formatted display string, and a sequence of fully-formed
line items. -/
def isFullCart : Json → Bool
  | Json.obj f =>
    (match jsLookup f "totalItems" with | some (Json.num _) => true | _ => false) &&
    (match jsLookup f "subTotal" with
     | some (Json.obj sf) =>
       (match jsLookup sf "amount" with | some (Json.num _) => true | _ => false) &&
       (match jsLookup sf "formatted" with | some (Json.str _) => true | _ => false)
     | _ => false) &&
    (match jsLookup f "items" with
     | some (Json.arr xs) => xs.all isFullLineItem
     | _ => false)
  | _ => false

/-- Does the parsed response body carry a `data.cart` field?  (`false` for a
non-object body, a missing or non-object `data`, or a `data` object with no
`cart` property.) -/
def lacksDataCart : Json → Bool
  | Json.obj fields =>
    match jsLookup fields "data" with
    | some (Json.obj dfields) => (jsLookup dfields "cart").isNone
    | _ => true
  | _ => true

/-- Does the parsed response body have a top-level `data` field? -/
def hasDataField : Json → Bool
  | Json.obj fields => (jsLookup fields "data").isSome
  | _ => false

/-- Embedding of the optional chaining `cart?.totalItems` in `pages/index.tsx`:
`none` (JS `undefined`) when `cart` is `undefined` or `null`; property access
otherwise (yielding `undefined` on primitives). -/
def optTotalItems : Option Json → Option Json
  | none => none
  | some Json.null => none
  | some (Json.obj f) => jsLookup f "totalItems"
  | some _ => none

mutual
/-- React's rendering of one defined JSX child value: `null` and booleans
render nothing, numbers and strings render their text, arrays render each
element in order, and a plain object is not a valid React child — React
throws, modelled by `none`. -/
def renderChildJson : Json → Option String
  | Json.null => some ""
  | Json.bool _ => some ""
  | Json.num n => some (toString n)
  | Json.str s => some s
  | Json.arr xs => renderChildren xs
  | Json.obj _ => none

/-- React's rendering of a list of JSX children, concatenated in order. -/
def renderChildren : List Json → Option String
  | [] => some ""
  | x :: xs =>
    match renderChildJson x, renderChildren xs with
    | some a, some b => some (a ++ b)
    | _, _ => none
end

/-- React's rendering of one JSX child expression, where the expression may
also be JS `undefined` (`none`), which renders nothing. -/
def renderChild : Option Json → Option String
  | none => some ""
  | some j => renderChildJson j

/-- Embedding of the `Home` page's output (pages/index.tsx):
`<div>Total items: {cart?.totalItems}</div>` applied to the value the hook
returned; `none` when React throws on an invalid child. -/
def homeView (cart : Option Json) : Option String :=
  (renderChild (optTotalItems cart)).map (fun s => "Total items: " ++ s)

/-- The fixed cart identifier the `Home` page passes to `useCart`. -/
def homeCartId : String := "ck5r8d5b500003f5o2aif0v2b"

/-- The response body the repository's own test serves through its network
interception layer: `ctx.data({ cart: { totalItems: 10 } })`. -/
def mockRespSmall : Json :=
  Json.obj [("data", Json.obj [("cart", Json.obj [("totalItems", Json.num 10)])])]

/-- The cart value carried by `mockRespSmall`. -/
def mockCartSmall : Json := Json.obj [("totalItems", Json.num 10)]

/-- The serialized request body up to (and excluding) the escaped identifier:
spells out, chunk by chunk, what `JSON.stringify({ query, variables })`
produces, so that the position of the caller-supplied identifier inside the
body is explicit. -/
def bodyPre : String :=
  "\x7b" ++ "\"" ++ escapeS "query" ++ "\":" ++ "\"" ++ escapeS getCartById ++ "\"" ++ "," ++
    "\"" ++ escapeS "variables" ++ "\":" ++ "\x7b" ++ "\"" ++ escapeS "id" ++ "\":" ++ "\""

/-- The serialized request body after the escaped identifier. -/
def bodyPost : String := "\"" ++ "\x7d" ++ "\x7d"

/-- A response body whose `data.cart` is JSON `null` (the service reports no
cart for the identifier). -/
def respCartNull : Json := Json.obj [("data", Json.obj [("cart", Json.null)])]

theorem unhex_hexDig : ∀ n, n < 16 → unhex (hexDig n) = some n := by decide

theorem descList_cons_bs (t : List Char) : descList ('\\' :: t) = descEscape t := by
  simp [descList]

theorem descEscape_u (a b c2 d : Char) (x y z w : Nat) (t2 : List Char)
    (ha : unhex a = some x) (hb : unhex b = some y) (hc : unhex c2 = some z)
    (hd : unhex d = some w) :
    descEscape ('u' :: a :: b :: c2 :: d :: t2) =
      (descList t2).map (fun l => Char.ofNat (4096 * x + 256 * y + 16 * z + w) :: l) := by
  rw [descEscape]
  rw [if_neg (by decide), if_neg (by decide), if_neg (by decide), if_neg (by decide),
    if_neg (by decide), if_neg (by decide), if_neg (by decide), if_pos rfl]
  rw [ha, hb, hc, hd]

theorem descList_escChar (c : Char) (r : List Char) :
    descList (escChar c ++ r) = (descList r).map (fun l => c :: l) := by
  by_cases h1 : c = '"'
  · subst h1; simp [escChar, descList, descEscape]
  by_cases h2 : c = '\\'
  · subst h2; simp [escChar, h1, descList, descEscape]
  by_cases h3 : c = '\x08'
  · subst h3; simp [escChar, h1, h2, descList, descEscape]
  by_cases h4 : c = '\x0c'
  · subst h4; simp [escChar, h1, h2, h3, descList, descEscape]
  by_cases h5 : c = '\n'
  · subst h5; simp [escChar, h1, h2, h3, h4, descList, descEscape]
  by_cases h6 : c = '\r'
  · subst h6; simp [escChar, h1, h2, h3, h4, h5, descList, descEscape]
  by_cases h7 : c = '\t'
  · subst h7; simp [escChar, h1, h2, h3, h4, h5, h6, descList, descEscape]
  by_cases h8 : c.toNat < 32
  · have hq : c.toNat / 16 < 16 := by omega
    have hr : c.toNat % 16 < 16 := by omega
    simp only [escChar, if_neg h1, if_neg h2, if_neg h3, if_neg h4, if_neg h5, if_neg h6,
      if_neg h7, if_pos h8, List.cons_append, List.nil_append]
    rw [descList_cons_bs, descEscape_u _ _ _ _ 0 0 (c.toNat / 16) (c.toNat % 16) r
      (by decide) (by decide) (unhex_hexDig _ hq) (unhex_hexDig _ hr)]
    have hv : 4096 * 0 + 256 * 0 + 16 * (c.toNat / 16) + c.toNat % 16 = c.toNat := by omega
    rw [hv, Char.ofNat_toNat]
  · simp only [escChar, if_neg h1, if_neg h2, if_neg h3, if_neg h4, if_neg h5, if_neg h6,
      if_neg h7, if_neg h8, List.cons_append, List.nil_append]
    rw [descList]
    rw [if_neg h2]

theorem descList_escList (s : List Char) : descList (escList s) = some s := by
  induction s with
  | nil => rfl
  | cons c cs ih => rw [escList, descList_escChar, ih]; rfl

theorem escList_inj {a b : List Char} (h : escList a = escList b) : a = b := by
  have ha := descList_escList a
  have hb := descList_escList b
  rw [h, hb] at ha
  exact (Option.some.inj ha).symm


theorem strAssoc (a b c : String) : a ++ b ++ c = a ++ (b ++ c) := by
  apply String.ext
  simp [String.data_append, List.append_assoc]

theorem mkBody_decomp (id : String) : mkBody id = bodyPre ++ (escapeS id ++ bodyPost) := by
  simp only [mkBody, jsonStringify, stringifyFields, bodyPre, bodyPost, strAssoc]

theorem escapeS_inj {a b : String} (h : escapeS a = escapeS b) : a = b := by
  apply String.ext
  exact escList_inj (congrArg String.data h)

theorem mkBody_inj {a b : String} (h : mkBody a = mkBody b) : a = b := by
  rw [mkBody_decomp, mkBody_decomp] at h
  have h2 : bodyPre.data ++ (escapeS a ++ bodyPost).data = bodyPre.data ++ (escapeS b ++ bodyPost).data := by
    rw [← String.data_append, ← String.data_append, h]
  have h3 := List.append_cancel_left h2
  rw [String.data_append, String.data_append] at h3
  exact escapeS_inj (String.ext (List.append_cancel_right h3))

theorem step_respond_keep (s : HookState) (st : Nat) (ob : Option Json) :
    (step s (HookEvent.respond st ob)).requests = s.requests ∧
      (step s (HookEvent.respond st ob)).lastDeps = s.lastDeps := by
  cases ob with
  | none => exact ⟨rfl, rfl⟩
  | some j =>
    simp only [step]
    cases hr : responseHandler j with
    | ok v => exact ⟨rfl, rfl⟩
    | error e => exact ⟨rfl, rfl⟩

theorem step_render_cart (s : HookState) (id : String) :
    (step s (HookEvent.render id)).cart = s.cart := by
  simp only [step]
  split
  · rfl
  · rfl

theorem runFrom_requests_after (t : List HookEvent) : ∀ (s : HookState) (prev : String),
    s.lastDeps = some (mkBody prev) →
    (runFrom s t).requests =
      s.requests ++ (dedupChanges.dedupAfter prev (observedIds t)).map useCartRequest := by
  induction t with
  | nil => intro s prev _; simp [runFrom, observedIds, dedupChanges.dedupAfter]
  | cons e t ih =>
    intro s prev h
    cases e with
    | render id =>
      by_cases hid : id = prev
      · subst hid
        have hs : step s (HookEvent.render id) = s := by simp [step, h]
        rw [runFrom, hs, ih s id h]
        simp [observedIds, dedupChanges.dedupAfter]
      · have hne : ¬ s.lastDeps = some (mkBody id) := by
          rw [h]
          intro hcontra
          exact hid (mkBody_inj (Option.some.inj hcontra)).symm
        have hstep : step s (HookEvent.render id) =
            { s with lastDeps := some (mkBody id)
                     requests := s.requests ++ [useCartRequest id] } := by
          simp [step, hne]
        rw [runFrom, hstep, ih _ id rfl]
        simp [observedIds, dedupChanges.dedupAfter, hid]
    | respond st ob =>
      have hk := step_respond_keep s st ob
      rw [runFrom, ih _ prev (hk.2.trans h)]
      rw [hk.1]
      simp [observedIds]
    | netfail =>
      rw [runFrom]
      exact ih s prev h

theorem runFrom_requests_start (t : List HookEvent) : ∀ (s : HookState),
    s.lastDeps = none →
    (runFrom s t).requests =
      s.requests ++ (dedupChanges (observedIds t)).map useCartRequest := by
  induction t with
  | nil => intro s _; simp [runFrom, observedIds, dedupChanges]
  | cons e t ih =>
    intro s h
    cases e with
    | render id =>
      have hne : ¬ s.lastDeps = some (mkBody id) := by rw [h]; exact fun hc => Option.noConfusion hc
      have hstep : step s (HookEvent.render id) =
          { s with lastDeps := some (mkBody id)
                   requests := s.requests ++ [useCartRequest id] } := by
        simp [step, hne]
      rw [runFrom, hstep, runFrom_requests_after t _ id rfl]
      simp [observedIds, dedupChanges]
    | respond st ob =>
      have hk := step_respond_keep s st ob
      rw [runFrom, ih _ (hk.2.trans h), hk.1]
      simp [observedIds]
    | netfail =>
      rw [runFrom]
      exact ih s h

theorem step_respond_ok (s : HookState) (st : Nat) (j : Json) (v : Option Json)
    (h : responseHandler j = Except.ok v) :
    step s (HookEvent.respond st (some j)) = { s with cart := v } := by
  simp [step, h]

theorem step_respond_error (s : HookState) (st : Nat) (j : Json)
    (h : responseHandler j = Except.error ()) :
    step s (HookEvent.respond st (some j)) = s := by
  simp [step, h]

theorem runFrom_cart_norespond (t : List HookEvent) : ∀ (s : HookState),
    (∀ e ∈ t, e.isRespond = false) → (runFrom s t).cart = s.cart := by
  induction t with
  | nil => intro s _; rfl
  | cons e t ih =>
    intro s h
    have he := h e (List.mem_cons_self e t)
    have ht : ∀ e2 ∈ t, e2.isRespond = false := fun e2 h2 => h e2 (List.mem_cons_of_mem e h2)
    cases e with
    | render id => rw [runFrom, ih _ ht, step_render_cart]
    | respond st ob => simp [HookEvent.isRespond] at he
    | netfail => rw [runFrom]; exact ih _ ht

theorem runFrom_append (t1 t2 : List HookEvent) : ∀ (s : HookState),
    runFrom s (t1 ++ t2) = runFrom (runFrom s t1) t2 := by
  induction t1 with
  | nil => intro s; rfl
  | cons e t ih => intro s; rw [List.cons_append, runFrom, runFrom, ih]

theorem lacks_handler (j : Json) (h : lacksDataCart j = true) :
    responseHandler j = Except.error () ∨ responseHandler j = Except.ok none := by
  cases j with
  | obj fields =>
    simp only [lacksDataCart] at h
    simp only [responseHandler]
    cases hd : jsLookup fields "data" with
    | none => exact Or.inl rfl
    | some dv =>
      cases dv with
      | null => exact Or.inl rfl
      | obj dfields =>
        rw [hd] at h
        have h2 : (jsLookup dfields "cart").isNone = true := h
        right
        show Except.ok (jsLookup dfields "cart") = Except.ok none
        rw [Option.isNone_iff_eq_none.mp h2]
      | bool b => exact Or.inr rfl
      | num n => exact Or.inr rfl
      | str s2 => exact Or.inr rfl
      | arr xs => exact Or.inr rfl
  | null => exact Or.inl rfl
  | bool b => exact Or.inl rfl
  | num n => exact Or.inl rfl
  | str s2 => exact Or.inl rfl
  | arr xs => exact Or.inl rfl

theorem hasData_false_handler (j : Json) (h : hasDataField j = false) :
    responseHandler j = Except.error () := by
  cases j with
  | obj fields =>
    simp only [hasDataField] at h
    cases hd : jsLookup fields "data" with
    | none => simp only [responseHandler, hd]
    | some dv => rw [hd] at h; simp at h
  | null => rfl
  | bool b => rfl
  | num n => rfl
  | str s2 => rfl
  | arr xs => rfl

/-- Running a fresh hook through one render and one successful response yields
the response's `data.cart` as the exposed cart value. -/
theorem runHook_two (id : String) (st : Nat) (j : Json) (v : Option Json)
    (h : responseHandler j = Except.ok v) :
    (runHook [HookEvent.render id, HookEvent.respond st (some j)]).cart = v := by
  show (step (step initState (HookEvent.render id)) (HookEvent.respond st (some j))).cart = v
  rw [step_respond_ok _ _ _ _ h]

/-- Claim C1: for every invocation of `useCart` with identifier `id`, the
outbound request is an HTTP POST to the fixed endpoint
`https://api.cartql.com` with header `Content-Type: application/json`, whose
body is the JSON serialization of `{ query, variables }` where `query` is
exactly the static `getCartById` operation text and `variables.id` equals the
supplied identifier (the body is the serialized object, with the escaped
identifier sitting in the `variables.id` slot), and the first render issues
exactly that request. -/
theorem claim_C1 (id : String) :
    (useCartRequest id).method = "POST" ∧
    (useCartRequest id).url = "https://api.cartql.com" ∧
    (useCartRequest id).contentType = "application/json" ∧
    (useCartRequest id).body =
      jsonStringify (Json.obj
        [("query", Json.str getCartById),
         ("variables", Json.obj [("id", Json.str id)])]) ∧
    (useCartRequest id).body = bodyPre ++ (escapeS id ++ bodyPost) ∧
    (runHook [HookEvent.render id]).requests = [useCartRequest id] := by
  refine ⟨rfl, rfl, rfl, rfl, mkBody_decomp id, ?_⟩
  have hne : ¬ initState.lastDeps = some (mkBody id) := fun hc => Option.noConfusion hc
  show (step initState (HookEvent.render id)).requests = _
  simp [step, hne, initState]

/-- Claim C2: over the lifetime of one `useCart` instance, re-rendering with
the same identifier issues no additional request, and each change of
identifier issues exactly one new request carrying the new identifier: the
request log always equals one request per entry of the rendered identifier
sequence with consecutive repeats collapsed. -/
theorem claim_C2 (t : List HookEvent) :
    (runHook t).requests = (dedupChanges (observedIds t)).map useCartRequest := by
  rw [runHook, runFrom_requests_start t initState rfl]
  exact List.nil_append _

/-- Claim C3: the hook returns `undefined` until a fetch completes; once a
response is parsed, the returned value equals the response's `data.cart`
field; in particular, after the mocked response
`{ data: { cart: { totalItems: 10 } } }` the returned value is a cart with
`totalItems = 10`. -/
theorem claim_C3 (t : List HookEvent) (s : HookState) (st : Nat) (j : Json)
    (v : Option Json) :
    ((∀ e ∈ t, e.isRespond = false) → (runHook t).cart = none) ∧
    (responseHandler j = Except.ok v →
      (step s (HookEvent.respond st (some j))).cart = v) ∧
    ((runHook [HookEvent.render homeCartId,
        HookEvent.respond 200 (some mockRespSmall)]).cart = some mockCartSmall) := by
  refine ⟨?_, ?_, runHook_two homeCartId 200 mockRespSmall (some mockCartSmall) rfl⟩
  · intro h
    exact runFrom_cart_norespond t initState h
  · intro h
    rw [step_respond_ok _ _ _ _ h]

/-- Witness for C3 at a concrete trace (a render followed by a network
failure leaves the cart `undefined`; the mocked response then yields the
cart with `totalItems = 10`). -/
theorem claim_C3_witness :
    ((runHook [HookEvent.render homeCartId, HookEvent.netfail]).cart = none) ∧
    ((step initState (HookEvent.respond 200 (some mockRespSmall))).cart =
      some mockCartSmall) ∧
    ((runHook [HookEvent.render homeCartId,
        HookEvent.respond 200 (some mockRespSmall)]).cart = some mockCartSmall) := by
  have h := claim_C3 [HookEvent.render homeCartId, HookEvent.netfail] initState 200
    mockRespSmall (some mockCartSmall)
  refine ⟨h.1 ?_, h.2.1 rfl, h.2.2⟩
  intro e he
  rcases List.mem_cons.mp he with rfl | he2
  · rfl
  rcases List.mem_cons.mp he2 with rfl | he3
  · rfl
  exact absurd he3 (List.not_mem_nil e)

/-- Counterexample to claim C4: the code never inspects the HTTP status, so a
non-2xx (here 500) response carrying a well-formed GraphQL body updates the
state — the returned value does not remain unset. -/
theorem claim_C4_counterexample :
    (runHook [HookEvent.render homeCartId,
      HookEvent.respond 500 (some mockRespSmall)]).cart = some mockCartSmall ∧
    some mockCartSmall ≠ (none : Option Json) :=
  ⟨runHook_two homeCartId 500 mockRespSmall (some mockCartSmall) rfl,
   fun hc => Option.noConfusion hc⟩

/-- Claim C4 as amended: on a rejected fetch (connection error) or a response
body that fails JSON parsing, the hook's state never updates and no error is
surfaced; the HTTP status is never inspected, so a non-2xx response is
processed exactly like a 2xx one. -/
theorem claim_C4_amended (s : HookState) (st st2 : Nat) (ob : Option Json) :
    step s HookEvent.netfail = s ∧
    step s (HookEvent.respond st none) = s ∧
    step s (HookEvent.respond st ob) = step s (HookEvent.respond st2 ob) := by
  refine ⟨rfl, rfl, ?_⟩
  cases ob with
  | none => rfl
  | some j => rfl

/-- Claim C5: a response whose JSON body lacks the `data.cart` field, arriving
while no fetch has completed yet, leaves the returned cart absent —
indistinguishable from "not yet available". -/
theorem claim_C5 (t : List HookEvent) (st : Nat) (j : Json)
    (ht : ∀ e ∈ t, e.isRespond = false) (hj : lacksDataCart j = true) :
    (runHook (t ++ [HookEvent.respond st (some j)])).cart = none := by
  rw [runHook, runFrom_append]
  have hsingle : ∀ (x : HookState) (e : HookEvent), runFrom x [e] = step x e :=
    fun x e => rfl
  rw [hsingle]
  have hc : (runFrom initState t).cart = none := runFrom_cart_norespond t initState ht
  rcases lacks_handler j hj with h | h
  · rw [step_respond_error _ _ _ h]
    exact hc
  · rw [step_respond_ok _ _ _ _ h]

/-- Witness for C5: after one render, a response `{ data: {} }` (no `cart`
field) leaves the cart absent. -/
theorem claim_C5_witness :
    (runHook ([HookEvent.render homeCartId] ++
      [HookEvent.respond 200 (some (Json.obj [("data", Json.obj [])]))])).cart = none := by
  apply claim_C5
  · intro e he
    rcases List.mem_cons.mp he with rfl | he2
    · rfl
    exact absurd he2 (List.not_mem_nil e)
  · rfl

/-- Counterexample to claim C6: the hook performs no validation, so the cart
value it exposes need not be fully formed — after the repository's own mocked
response `{ data: { cart: { totalItems: 10 } } }` the exposed cart has a
`totalItems` field only (no subtotal, no items), which fails the full-shape
check. -/
theorem claim_C6_counterexample :
    (runHook [HookEvent.render homeCartId,
      HookEvent.respond 200 (some mockRespSmall)]).cart = some mockCartSmall ∧
    isFullCart mockCartSmall = false :=
  ⟨runHook_two homeCartId 200 mockRespSmall (some mockCartSmall) rfl, rfl⟩

/-- Claim C6 as amended: the cart value exposed to consumers is either wholly
absent or exactly the `data.cart` value of the last successfully handled
response, taken verbatim with no validation; it is a fully-formed cart only
when the response's `data.cart` is. -/
theorem claim_C6_amended (s : HookState) (st : Nat) (j : Json) (v : Option Json)
    (h : responseHandler j = Except.ok v) :
    (step s (HookEvent.respond st (some j))).cart = v := by
  rw [step_respond_ok _ _ _ _ h]

/-- Witness for the amended C6: the mocked response's `data.cart` value is
exposed verbatim. -/
theorem claim_C6_amended_witness :
    (step initState (HookEvent.respond 200 (some mockRespSmall))).cart =
      some mockCartSmall :=
  claim_C6_amended initState 200 mockRespSmall (some mockCartSmall) rfl

/-- Claim C7: while a request is in flight the previously returned value
remains visible (renders, network failures and unparsable bodies leave the
cart unchanged); when several responses are processed, the last handler to
run wins; responses never alter the request log (no cancellation of
superseded requests). -/
theorem claim_C7 (s : HookState) (id : String) (st1 st2 : Nat) (j1 j2 : Json)
    (v1 v2 : Option Json) :
    ((step s (HookEvent.render id)).cart = s.cart) ∧
    ((step s HookEvent.netfail).cart = s.cart) ∧
    ((step s (HookEvent.respond st1 none)).cart = s.cart) ∧
    (responseHandler j1 = Except.ok v1 → responseHandler j2 = Except.ok v2 →
      (runFrom s [HookEvent.respond st1 (some j1),
        HookEvent.respond st2 (some j2)]).cart = v2) ∧
    ((step s (HookEvent.respond st1 (some j1))).requests = s.requests ∧
      (step s (HookEvent.respond st1 (some j1))).lastDeps = s.lastDeps) := by
  refine ⟨step_render_cart s id, rfl, rfl, ?_, step_respond_keep s st1 (some j1)⟩
  intro _ h2
  show (step (step s (HookEvent.respond st1 (some j1)))
    (HookEvent.respond st2 (some j2))).cart = v2
  rw [step_respond_ok _ _ _ _ h2]

/-- Witness for C7: from a fresh instance, two concurrent responses — one
with a cart, then one with `cart: null` — leave the `null` of the later
handler ("last response written wins"). -/
theorem claim_C7_witness :
    ((step initState (HookEvent.render "a")).cart = initState.cart) ∧
    ((step initState HookEvent.netfail).cart = initState.cart) ∧
    ((step initState (HookEvent.respond 200 none)).cart = initState.cart) ∧
    ((runFrom initState [HookEvent.respond 200 (some mockRespSmall),
      HookEvent.respond 200 (some respCartNull)]).cart = some Json.null) ∧
    ((step initState (HookEvent.respond 200 (some mockRespSmall))).requests =
        initState.requests ∧
      (step initState (HookEvent.respond 200 (some mockRespSmall))).lastDeps =
        initState.lastDeps) := by
  have h := claim_C7 initState "a" 200 200 mockRespSmall respCartNull
    (some mockCartSmall) (some Json.null)
  exact ⟨h.1, h.2.1, h.2.2.1, h.2.2.2.1 rfl rfl, h.2.2.2.2⟩

/-- Claim C8: if the parsed response JSON has no top-level `data` field, the
response handler throws (property access on `undefined`, or destructuring a
non-object), the rejection is unhandled, and the hook's state is left exactly
as it was. -/
theorem claim_C8 (s : HookState) (st : Nat) (j : Json)
    (h : hasDataField j = false) :
    responseHandler j = Except.error () ∧
    step s (HookEvent.respond st (some j)) = s :=
  ⟨hasData_false_handler j h, step_respond_error s st j (hasData_false_handler j h)⟩

/-- Witness for C8: a `{ errors: [] }` body throws in the handler and leaves a
state with an already-set cart exactly as it was (in particular not absent). -/
theorem claim_C8_witness :
    responseHandler (Json.obj [("errors", Json.arr [])]) = Except.error () ∧
    step { cart := some mockCartSmall, lastDeps := none, requests := [] }
        (HookEvent.respond 200 (some (Json.obj [("errors", Json.arr [])]))) =
      { cart := some mockCartSmall, lastDeps := none, requests := [] } :=
  claim_C8 { cart := some mockCartSmall, lastDeps := none, requests := [] } 200
    (Json.obj [("errors", Json.arr [])]) rfl

/-- Claim C9: the hook performs no validation of its identifier argument —
for every string, including the empty string, a first render builds and
issues the request with `variables.id` equal to that string, never rejecting
or signalling an error. -/
theorem claim_C9 (s : HookState) (id : String) (h : s.lastDeps = none) :
    (step s (HookEvent.render id)).requests = s.requests ++ [useCartRequest id] ∧
    (useCartRequest id).body = bodyPre ++ (escapeS id ++ bodyPost) := by
  constructor
  · have hne : ¬ s.lastDeps = some (mkBody id) := by
      rw [h]
      exact fun hc => Option.noConfusion hc
    simp [step, hne]
  · exact mkBody_decomp id

/-- Witness for C9 at the empty identifier: the request is still issued, with
the empty string in the `variables.id` slot. -/
theorem claim_C9_witness :
    (step initState (HookEvent.render "")).requests =
      initState.requests ++ [useCartRequest ""] ∧
    (useCartRequest "").body = bodyPre ++ (escapeS "" ++ bodyPost) :=
  claim_C9 initState "" rfl

/-- Claim C10: the Home page renders totally for every cart state of the data
model — an `undefined` or `null` cart renders `Total items: ` with no number,
a cart whose `totalItems` is a number renders `Total items: ` followed by
that number; in particular the end-to-end trace with the repository's mocked
response renders `Total items: 10`. -/
theorem claim_C10 (f : List (String × Json)) (n : Int) :
    homeView none = some "Total items: " ∧
    homeView (some Json.null) = some "Total items: " ∧
    (jsLookup f "totalItems" = some (Json.num n) →
      homeView (some (Json.obj f)) = some ("Total items: " ++ toString n)) ∧
    homeView ((runHook [HookEvent.render homeCartId,
      HookEvent.respond 200 (some mockRespSmall)]).cart) = some "Total items: 10" := by
  refine ⟨rfl, rfl, ?_, ?_⟩
  · intro h
    simp [homeView, optTotalItems, h, renderChild, renderChildJson]
  · rw [runHook_two homeCartId 200 mockRespSmall (some mockCartSmall) rfl]
    rfl

/-- Witness for C10 at the concrete cart `{ totalItems: 10 }`. -/
theorem claim_C10_witness :
    homeView none = some "Total items: " ∧
    homeView (some Json.null) = some "Total items: " ∧
    homeView (some (Json.obj [("totalItems", Json.num 10)])) =
      some ("Total items: " ++ toString (10 : Int)) ∧
    homeView ((runHook [HookEvent.render homeCartId,
      HookEvent.respond 200 (some mockRespSmall)]).cart) = some "Total items: 10" := by
  have h := claim_C10 [("totalItems", Json.num 10)] 10
  exact ⟨h.1, h.2.1, h.2.2.1 rfl, h.2.2.2⟩
